import Mathlib

/-!
Verification of the content-collection pipeline and blog listing queries of
the digitalagency-site repository.

The pipeline is declared in `content-collections.ts` (the `posts` collection:
a zod-style schema over front matter plus a transform adding `slug` and
`url`), and the listing page `src/app/blog/page.jsx` derives filtered views
(`filteredPosts`, `featuredPosts`, the "Latest Articles" grid) from the
published collection `allPosts`.
-/

/-- The front matter of one article source file, after key-value extraction:
each schema key is present (`some`) or absent (`none`). -/
structure FrontMatter where
  title : Option String
  description : Option String
  date : Option String
  author : Option String
  category : Option String
  tags : Option (List String)
  image : Option String
  featured : Option Bool
deriving DecidableEq, Repr

/-- The result of validating front matter against the `posts` schema of
`content-collections.ts`: `title`, `description`, `date`, `author`,
`category` are required strings; `tags` is `z.array(z.string()).optional()`
(no default, so it stays an `Option`); `image` is `z.string().optional()`;
`featured` is `z.boolean().optional().default(false)`. -/
structure Document where
  title : String
  description : String
  date : String
  author : String
  category : String
  tags : Option (List String)
  image : Option String
  featured : Bool
deriving DecidableEq, Repr

/-- A published article record: the validated document together with the
fields added by the collection transform (`mdx`, `slug`, `url`). -/
structure Post where
  title : String
  description : String
  date : String
  author : String
  category : String
  tags : Option (List String)
  image : Option String
  featured : Bool
  mdx : String
  slug : String
  url : String
deriving DecidableEq, Repr

/-- Zod-style required-field check: an absent key yields a validation error
naming the field. -/
def require (field : String) : Option α → Except String α
  | none => .error field
  | some v => .ok v

/-- The schema of the `posts` collection in `content-collections.ts`
(src/unnamed/part_001, lines 8-17): validates front matter into a typed
document, or returns a `ValidationError` naming the missing required field. -/
def parseSchema (fm : FrontMatter) : Except String Document := do
  let title ← require "title" fm.title
  let description ← require "description" fm.description
  let date ← require "date" fm.date
  let author ← require "author" fm.author
  let category ← require "category" fm.category
  pure { title, description, date, author, category,
         tags := fm.tags, image := fm.image,
         featured := fm.featured.getD false }

/-- Modelled from the spec: `compileMDX` comes from the external
`@content-collections/mdx` library, not from this repository's source; per
the spec it is a pure, side-effect-free compilation of the raw body into a
renderable unit, so it is represented as a pure function on the raw text. -/
def compileMDX (raw : String) : String := raw

/-- The `transform` of the `posts` collection (src/unnamed/part_001,
lines 18-26): spreads the validated document and adds `mdx`,
`slug := document._meta.path` and `url := "/blog/" ++ document._meta.path`. -/
def transform (metaPath : String) (mdx : String) (document : Document) : Post :=
  { title := document.title
    description := document.description
    date := document.date
    author := document.author
    category := document.category
    tags := document.tags
    image := document.image
    featured := document.featured
    mdx := mdx
    slug := metaPath
    url := "/blog/" ++ metaPath }

/-- One raw article source file: its path relative to the content root
(extension stripped, as in `document._meta.path`), its front matter and its
raw body. -/
structure ArticleSource where
  path : String
  frontMatter : FrontMatter
  body : String
deriving DecidableEq, Repr

/-- Modelled from the spec: the collection build step of the
content-collections library is not in this repository's source; per the
spec's skip-and-report policy, every source whose front matter fails schema
validation is skipped and every valid source is parsed, transformed and
published, in discovery order. -/
def publish (sources : List ArticleSource) : List Post :=
  sources.filterMap fun s =>
    match parseSchema s.frontMatter with
    | .error _ => none
    | .ok d => some (transform s.path (compileMDX s.body) d)

/-- JavaScript's `String.prototype.toLowerCase`, embedded character-wise. -/
def toLowerStr (s : String) : String :=
  String.mk (s.toList.map Char.toLower)

/-- Executable substring test on character lists, embedding JavaScript's
`String.prototype.includes`: does `sub` occur contiguously inside `hay`? -/
def containsSub (hay sub : List Char) : Bool :=
  match hay with
  | [] => sub.isEmpty
  | _ :: t => sub.isPrefixOf hay || containsSub t sub

/-- JavaScript's `hay.includes(sub)` on strings. -/
def strIncludes (hay sub : String) : Bool :=
  containsSub hay.toList sub.toList

/-- The search half of the `filteredPosts` predicate in
`src/app/blog/page.jsx` (lines 22-23):
`post.title.toLowerCase().includes(searchTerm.toLowerCase()) ||
 post.description.toLowerCase().includes(searchTerm.toLowerCase())`. -/
def matchesSearch (searchTerm : String) (post : Post) : Bool :=
  strIncludes (toLowerStr post.title) (toLowerStr searchTerm) ||
  strIncludes (toLowerStr post.description) (toLowerStr searchTerm)

/-- The category half of the `filteredPosts` predicate in
`src/app/blog/page.jsx` (line 24):
`activeCategory === "All" || post.category === activeCategory`. -/
def matchesCategory (activeCategory : String) (post : Post) : Bool :=
  activeCategory == "All" || post.category == activeCategory

/-- The spec's `search(collection, term)` query helper, realised by the
search half of the `filteredPosts` filter in `src/app/blog/page.jsx`. -/
def search (collection : List Post) (term : String) : List Post :=
  collection.filter (matchesSearch term)

/-- The spec's `byCategory(collection, category)` query helper, realised by
the category half of the `filteredPosts` filter in `src/app/blog/page.jsx`
(line 24), including its `"All"` sentinel. -/
def byCategory (collection : List Post) (category : String) : List Post :=
  collection.filter (matchesCategory category)

/-- `filteredPosts` of `src/app/blog/page.jsx` (lines 21-26): the posts
matching both the search term and the active category. -/
def filteredPosts (collection : List Post) (searchTerm activeCategory : String) : List Post :=
  collection.filter fun post =>
    matchesSearch searchTerm post && matchesCategory activeCategory post

/-- `featuredPosts` of `src/app/blog/page.jsx` (line 29):
`allPosts.filter(post => post.featured)`. -/
def featuredPosts (collection : List Post) : List Post :=
  collection.filter fun post => post.featured

/-- The "Latest Articles" grid of `src/app/blog/page.jsx` (lines 159-160):
`filteredPosts.filter((post) => !post.featured)`. -/
def latestArticles (collection : List Post) (searchTerm activeCategory : String) : List Post :=
  (filteredPosts collection searchTerm activeCategory).filter fun post => !post.featured

/-- Modelled from the spec: the `related(collection, record, limit)` query
helper (used by the blog detail page) is not among the repository files
under src; per the spec it filters to records sharing `record.category`,
excludes `record` itself by `slug` equality, truncates to `limit`, and
preserves collection order. -/
def related (collection : List Post) (record : Post) (limit : Nat) : List Post :=
  (collection.filter fun p => p.category == record.category && p.slug != record.slug).take limit

/-- The schema of the compiled collection configuration embedded in
src/unnamed/part_000 (lines 434-443): the same field list as the TypeScript
source — required strings `title`, `description`, `date`, `author`,
`category`; optional `tags` and `image` without defaults; `featured`
optional defaulting to `false`. -/
def parseSchemaCompiled (fm : FrontMatter) : Except String Document := do
  let title ← require "title" fm.title
  let description ← require "description" fm.description
  let date ← require "date" fm.date
  let author ← require "author" fm.author
  let category ← require "category" fm.category
  pure { title, description, date, author, category,
         tags := fm.tags, image := fm.image,
         featured := fm.featured.getD false }

/-- The transform of the compiled collection configuration embedded in
src/unnamed/part_000 (lines 444-452): spreads the document and adds `mdx`,
`slug := document._meta.path`, `url := "/blog/" ++ document._meta.path`. -/
def transformCompiled (metaPath : String) (mdx : String) (document : Document) : Post :=
  { title := document.title
    description := document.description
    date := document.date
    author := document.author
    category := document.category
    tags := document.tags
    image := document.image
    featured := document.featured
    mdx := mdx
    slug := metaPath
    url := "/blog/" ++ metaPath }

/-- An article record built from the front matter of
`content/posts/api-design-development.mdx`, as published by the pipeline. -/
def apiDesignPost : Post :=
  transform "api-design-development" "#"
    { title := "The Complete Guide to API Design and Development"
      description := "Master the art of designing and building robust APIs."
      date := "2024-01-03"
      author := "Alex Johnson"
      category := "Backend Development"
      tags := some ["API", "Backend", "Node.js"]
      image := some "/blog1.jpg"
      featured := false }

/-- An article record in category `"Design"`, after
`content/posts/ui-ux-design-principles.mdx`. -/
def uiUxPost : Post :=
  transform "ui-ux-design-principles" "#"
    { title := "UI/UX Design Principles That Drive Conversions"
      description := "Learn how to design user interfaces that convert."
      date := "2024-01-12"
      author := "Sarah Chen"
      category := "Design"
      tags := some ["UI/UX", "Conversion", "Design"]
      image := some "/blog1.jpg"
      featured := false }

/-- The validated document of an article whose front matter omits `tags`,
`image` and `featured`. -/
def designDocB : Document :=
  { title := "Design Systems at Scale"
    description := "Why Seo Strategies matter for design-led teams."
    date := "2024-02-01"
    author := "Sarah Chen"
    category := "Design"
    tags := none
    image := none
    featured := false }

/-- A second article record in category `"Design"`. -/
def designPostB : Post :=
  transform "design-systems" "#" designDocB

/-- An article record marked `featured: true`, with a title containing
"Seo Strategies" in mixed case. -/
def featuredSeoPost : Post :=
  transform "seo-strategies" "#"
    { title := "Modern Seo Strategies for 2024"
      description := "Search engine optimisation that works."
      date := "2024-03-01"
      author := "Alex Johnson"
      category := "Marketing"
      tags := none
      image := none
      featured := true }

/-- Complete front matter (every schema key present). -/
def fullFrontMatter : FrontMatter :=
  { title := some "The Complete Guide to API Design and Development"
    description := some "Master the art of designing and building robust APIs."
    date := some "2024-01-03"
    author := some "Alex Johnson"
    category := some "Backend Development"
    tags := some ["API", "Backend", "Node.js"]
    image := some "/blog1.jpg"
    featured := some false }

/-- Front matter that omits only the optional keys `tags`, `image` and
`featured`. -/
def fmNoTags : FrontMatter :=
  { title := some "Design Systems at Scale"
    description := some "Why Seo Strategies matter for design-led teams."
    date := some "2024-02-01"
    author := some "Sarah Chen"
    category := some "Design"
    tags := none
    image := none
    featured := none }

/-- Front matter that omits only the required key `author`. -/
def fmNoAuthor : FrontMatter :=
  { title := some "Building Scalable E-commerce Platforms"
    description := some "Architecture patterns for e-commerce that scales."
    date := some "2024-01-05"
    author := none
    category := some "E-commerce"
    tags := some ["E-commerce"]
    image := none
    featured := some false }

/-- A valid article source. -/
def srcApi : ArticleSource :=
  { path := "api-design-development", frontMatter := fullFrontMatter, body := "#" }

/-- A second valid article source. -/
def srcDesign : ArticleSource :=
  { path := "design-systems", frontMatter := fmNoTags, body := "#" }

/-- An article source whose front matter omits the required `author` key. -/
def srcNoAuthor : ArticleSource :=
  { path := "ecommerce-development-guide", frontMatter := fmNoAuthor, body := "#" }

section Lemmas

/-- The empty list is a contiguous part of every list, per `containsSub`. -/
theorem containsSub_nil (hay : List Char) : containsSub hay [] = true := by
  induction hay with
  | nil => rfl
  | cons a t ih => simp [containsSub, List.isPrefixOf, ih]

/-- `containsSub` decides the infix relation on character lists. -/
theorem containsSub_iff (hay sub : List Char) :
    containsSub hay sub = true ↔ sub <:+: hay := by
  induction hay with
  | nil => simp [containsSub, List.isEmpty_iff, List.infix_nil]
  | cons a t ih =>
    simp [containsSub, List.infix_cons_iff, List.isPrefixOf_iff_prefix, ih, or_comm]

/-- Successful schema validation is exactly field-wise agreement with the
front matter, with `featured` defaulted to `false` when absent. -/
theorem parseSchema_ok_iff (fm : FrontMatter) (d : Document) :
    parseSchema fm = .ok d ↔
      fm.title = some d.title ∧ fm.description = some d.description ∧
      fm.date = some d.date ∧ fm.author = some d.author ∧
      fm.category = some d.category ∧ d.tags = fm.tags ∧
      d.image = fm.image ∧ d.featured = fm.featured.getD false := by
  rcases fm with ⟨t, desc, dt, auth, cat, tags, img, feat⟩
  rcases d with ⟨dt', dd', ddt', da', dc', dtg', di', df'⟩
  cases t <;> cases desc <;> cases dt <;> cases auth <;> cases cat <;>
    simp [parseSchema, require, Bind.bind, Except.bind, Pure.pure, Except.pure,
      Document.mk.injEq] <;> aesop

/-- Front matter missing at least one required field fails schema validation
with an error naming a required field it actually omits. -/
theorem parseSchema_error_of_missing (fm : FrontMatter)
    (h : fm.title = none ∨ fm.description = none ∨ fm.date = none ∨
         fm.author = none ∨ fm.category = none) :
    ∃ f, parseSchema fm = .error f ∧
      ((f = "title" ∧ fm.title = none) ∨
       (f = "description" ∧ fm.description = none) ∨
       (f = "date" ∧ fm.date = none) ∨
       (f = "author" ∧ fm.author = none) ∨
       (f = "category" ∧ fm.category = none)) := by
  rcases fm with ⟨t, desc, dt, auth, cat, tags, img, feat⟩
  cases t with
  | none => exact ⟨"title", rfl, Or.inl ⟨rfl, rfl⟩⟩
  | some tv =>
  cases desc with
  | none => exact ⟨"description", rfl, Or.inr (Or.inl ⟨rfl, rfl⟩)⟩
  | some descv =>
  cases dt with
  | none => exact ⟨"date", rfl, Or.inr (Or.inr (Or.inl ⟨rfl, rfl⟩))⟩
  | some dtv =>
  cases auth with
  | none => exact ⟨"author", rfl, Or.inr (Or.inr (Or.inr (Or.inl ⟨rfl, rfl⟩)))⟩
  | some authv =>
  cases cat with
  | none => exact ⟨"category", rfl, Or.inr (Or.inr (Or.inr (Or.inr ⟨rfl, rfl⟩)))⟩
  | some catv => simp at h

/-- `publish` distributes over list append. -/
theorem publish_append (xs ys : List ArticleSource) :
    publish (xs ++ ys) = publish xs ++ publish ys := by
  simp [publish, List.filterMap_append]

/-- A source that fails schema validation contributes nothing to `publish`. -/
theorem publish_cons_error (s : ArticleSource) (rest : List ArticleSource)
    (f : String) (hf : parseSchema s.frontMatter = .error f) :
    publish (s :: rest) = publish rest := by
  simp [publish, List.filterMap_cons, hf]

end Lemmas

/-- C1, counterexample: the front matter `fmNoTags` omits `tags`, yet the
validated record's `tags` field is `none`, not the empty list — the schema
`z.array(z.string()).optional()` carries no default. -/
theorem tags_omitted_absent_counterexample :
    fmNoTags.tags = none ∧
    (parseSchema fmNoTags).map Document.tags = Except.ok none ∧
    (parseSchema fmNoTags).map Document.tags ≠ Except.ok (some ([] : List String)) := by
  refine ⟨rfl, rfl, ?_⟩
  intro hcontr
  have h0 : (parseSchema fmNoTags).map Document.tags = Except.ok none := rfl
  rw [h0] at hcontr
  simp at hcontr

/-- C1, amended: when the front matter omits `tags`, the validated record's
`tags` field is absent (`none`), and consumers such as the listing page guard
tag rendering with a null check. -/
theorem tags_omitted_stays_absent (fm : FrontMatter) (d : Document)
    (h : fm.tags = none) (hok : parseSchema fm = .ok d) : d.tags = none := by
  rcases (parseSchema_ok_iff fm d).1 hok with ⟨-, -, -, -, -, htags, -, -⟩
  rw [htags, h]

/-- C1 witness: the amended claim at the concrete front matter `fmNoTags`. -/
theorem tags_omitted_stays_absent_witness :
    fmNoTags.tags = none ∧ designDocB.tags = none :=
  ⟨rfl, tags_omitted_stays_absent fmNoTags designDocB rfl rfl⟩

/-- C2: a source file whose front matter omits a required field fails schema
validation with a `ValidationError` naming a required field it omits, is
absent from the published collection, and every other file in the same run
publishes as if it were not there. -/
theorem missing_required_field_skip_and_report (pre post : List ArticleSource)
    (s : ArticleSource)
    (h : s.frontMatter.title = none ∨ s.frontMatter.description = none ∨
         s.frontMatter.date = none ∨ s.frontMatter.author = none ∨
         s.frontMatter.category = none) :
    (∃ f, parseSchema s.frontMatter = .error f ∧
       ((f = "title" ∧ s.frontMatter.title = none) ∨
        (f = "description" ∧ s.frontMatter.description = none) ∨
        (f = "date" ∧ s.frontMatter.date = none) ∨
        (f = "author" ∧ s.frontMatter.author = none) ∨
        (f = "category" ∧ s.frontMatter.category = none))) ∧
    publish (pre ++ s :: post) = publish pre ++ publish post := by
  have hex := parseSchema_error_of_missing s.frontMatter h
  refine ⟨hex, ?_⟩
  obtain ⟨f, hf, -⟩ := hex
  rw [publish_append, publish_cons_error s post f hf]

/-- C2 witness: the claim at a run of three concrete sources where the middle
one omits `author`; the two valid sources still publish. -/
theorem missing_required_field_skip_and_report_witness :
    (srcNoAuthor.frontMatter.title = none ∨
     srcNoAuthor.frontMatter.description = none ∨
     srcNoAuthor.frontMatter.date = none ∨
     srcNoAuthor.frontMatter.author = none ∨
     srcNoAuthor.frontMatter.category = none) ∧
    ((∃ f, parseSchema srcNoAuthor.frontMatter = .error f ∧
       ((f = "title" ∧ srcNoAuthor.frontMatter.title = none) ∨
        (f = "description" ∧ srcNoAuthor.frontMatter.description = none) ∨
        (f = "date" ∧ srcNoAuthor.frontMatter.date = none) ∨
        (f = "author" ∧ srcNoAuthor.frontMatter.author = none) ∨
        (f = "category" ∧ srcNoAuthor.frontMatter.category = none))) ∧
     publish ([srcApi] ++ srcNoAuthor :: [srcDesign]) =
       publish [srcApi] ++ publish [srcDesign]) :=
  ⟨Or.inr (Or.inr (Or.inr (Or.inl rfl))),
   missing_required_field_skip_and_report [srcApi] [srcDesign] srcNoAuthor
     (Or.inr (Or.inr (Or.inr (Or.inl rfl))))⟩

/-- C3: every published record's `url` is the fixed prefix `"/blog/"`
concatenated with its `slug`; in particular the record with slug
`"api-design-development"` has url exactly `"/blog/api-design-development"`. -/
theorem url_eq_blog_prefix_slug :
    (∀ (sources : List ArticleSource) (p : Post),
        p ∈ publish sources → p.url = "/blog/" ++ p.slug) ∧
    apiDesignPost.slug = "api-design-development" ∧
    apiDesignPost.url = "/blog/api-design-development" := by
  refine ⟨?_, rfl, rfl⟩
  intro sources p hp
  obtain ⟨s, -, hs⟩ := List.mem_filterMap.1 hp
  rcases hpar : parseSchema s.frontMatter with f | d
  · rw [hpar] at hs
    simp at hs
  · rw [hpar] at hs
    simp only [Option.some.injEq] at hs
    rw [← hs]
    rfl

/-- C4: `search` keeps exactly the records whose lowercased `title` or
lowercased `description` contains the lowercased term as a contiguous
substring; searching `"SEO"` matches a record whose title contains
`"Seo Strategies"` in mixed case. -/
theorem search_case_insensitive_substring :
    (∀ (c : List Post) (term : String) (p : Post),
        p ∈ search c term ↔
          p ∈ c ∧
            ((toLowerStr term).toList <:+: (toLowerStr p.title).toList ∨
             (toLowerStr term).toList <:+: (toLowerStr p.description).toList)) ∧
    featuredSeoPost ∈ search [featuredSeoPost] "SEO" := by
  constructor
  · intro c term p
    simp [search, List.mem_filter, matchesSearch, strIncludes, containsSub_iff]
  · exact List.mem_filter.2 ⟨List.mem_singleton_self _, rfl⟩

/-- C5: when the front matter omits `featured`, the validated record's
`featured` field is the boolean `false`, by the schema's
`.optional().default(false)`. -/
theorem featured_omitted_defaults_false (fm : FrontMatter) (d : Document)
    (h : fm.featured = none) (hok : parseSchema fm = .ok d) :
    d.featured = false := by
  rcases (parseSchema_ok_iff fm d).1 hok with ⟨-, -, -, -, -, -, -, hfeat⟩
  rw [hfeat, h]
  rfl

/-- C5 witness: the claim at the concrete front matter `fmNoTags`, which
omits `featured`. -/
theorem featured_omitted_defaults_false_witness :
    fmNoTags.featured = none ∧ designDocB.featured = false :=
  ⟨rfl, featured_omitted_defaults_false fmNoTags designDocB rfl rfl⟩

/-- C6, counterexample: with the sentinel category `"All"`, the page's
category filter keeps a record whose `category` is `"Design"`, so
`byCategory` is not an exact-match filter for every category string. -/
theorem byCategory_all_sentinel_counterexample :
    uiUxPost ∈ byCategory [uiUxPost] "All" ∧ uiUxPost.category ≠ "All" := by
  constructor
  · exact List.mem_filter.2 ⟨List.mem_singleton_self _, rfl⟩
  · intro hcontr
    have h0 : uiUxPost.category = "Design" := rfl
    rw [h0] at hcontr
    simp at hcontr

/-- C6, amended: for every category string other than the sentinel `"All"`,
`byCategory` keeps exactly the records whose `category` equals the given
category, case-sensitively; `"All"` disables the filter. -/
theorem byCategory_exact_match (c : List Post) (cat : String)
    (h : cat ≠ "All") (p : Post) :
    p ∈ byCategory c cat ↔ p ∈ c ∧ p.category = cat := by
  simp [byCategory, List.mem_filter, matchesCategory, h]

/-- C6 witness: the amended claim at the concrete category `"Design"`. -/
theorem byCategory_exact_match_witness :
    ("Design" : String) ≠ "All" ∧
    (uiUxPost ∈ byCategory [uiUxPost, apiDesignPost] "Design" ↔
      uiUxPost ∈ [uiUxPost, apiDesignPost] ∧ uiUxPost.category = "Design") :=
  ⟨by simp, byCategory_exact_match [uiUxPost, apiDesignPost] "Design" (by simp) uiUxPost⟩

/-- C7: `related` never keeps the record itself (exclusion by `slug`
equality), keeps only records sharing its `category`, never exceeds `limit`
entries, and is a sublist of the collection (discovery order preserved). -/
theorem related_excludes_self_bounded_ordered (c : List Post) (a : Post)
    (limit : Nat) :
    (∀ p ∈ related c a limit, p.slug ≠ a.slug ∧ p.category = a.category) ∧
    (related c a limit).length ≤ limit ∧
    List.Sublist (related c a limit) c := by
  refine ⟨?_, ?_, ?_⟩
  · intro p hp
    have hpred := (List.mem_filter.1 (List.mem_of_mem_take hp)).2
    simp only [Bool.and_eq_true, beq_iff_eq, bne_iff_ne, ne_eq] at hpred
    exact ⟨hpred.2, hpred.1⟩
  · exact List.length_take_le limit _
  · exact (List.take_sublist _ _).trans (List.filter_sublist _)

/-- C8: searching with the empty term returns the full collection unchanged
and in the same order. -/
theorem search_empty_term_identity (c : List Post) : search c "" = c := by
  apply List.filter_eq_self.2
  intro p _
  have h1 : matchesSearch "" p =
      (containsSub (toLowerStr p.title).toList [] ||
       containsSub (toLowerStr p.description).toList []) := rfl
  rw [h1, containsSub_nil, containsSub_nil]
  rfl

/-- C9: the compiled collection configuration embedded in part_000 and the
TypeScript configuration in part_001 agree: the schemas validate every front
matter identically, and the transforms produce identical records (in
particular the same `slug` and `url`). -/
theorem compiled_config_equals_source_config :
    (∀ fm, parseSchemaCompiled fm = parseSchema fm) ∧
    (∀ metaPath mdx d, transformCompiled metaPath mdx d = transform metaPath mdx d) :=
  ⟨fun _ => rfl, fun _ _ _ => rfl⟩

/-- C10: a post with `featured = true` never appears in the "Latest
Articles" grid, whatever the search term and active category; if it is in
the collection it appears in `featuredPosts`. -/
theorem featured_excluded_from_latest_grid (c : List Post)
    (term cat : String) (p : Post) (h : p.featured = true) :
    p ∉ latestArticles c term cat ∧ (p ∈ c → p ∈ featuredPosts c) := by
  constructor
  · intro hmem
    have hpred := (List.mem_filter.1 hmem).2
    simp [h] at hpred
  · intro hc
    exact List.mem_filter.2 ⟨hc, h⟩

/-- C10 witness: the claim at a concrete featured post that matches the
current search term and the active category. -/
theorem featured_excluded_from_latest_grid_witness :
    featuredSeoPost.featured = true ∧
    (featuredSeoPost ∉ latestArticles [featuredSeoPost, uiUxPost] "seo" "All" ∧
     (featuredSeoPost ∈ [featuredSeoPost, uiUxPost] →
       featuredSeoPost ∈ featuredPosts [featuredSeoPost, uiUxPost])) :=
  ⟨rfl, featured_excluded_from_latest_grid [featuredSeoPost, uiUxPost] "seo" "All"
    featuredSeoPost rfl⟩
